import Mathlib

/-!
# Verification of the Seraface skincare pipeline router

Shallow embedding of `src/app/routers/skincare.py` (the four phase endpoints
and the status endpoint) together with the session store contract it relies
on.  The store implementation (`app/connection_logic.data_store`) and the
phase services are not part of the given source, so they are modelled from
the specification; the router logic itself is translated line by line from
`skincare.py`.
-/

/-- JSON values, the payload universe the pipeline threads between phases. -/
inductive Json where
  | null
  | bool (b : Bool)
  | num (n : Int)
  | str (s : String)
  | arr (xs : List Json)
  | obj (kvs : List (String × Json))

/-- Python truthiness of a JSON value: `None`, `False`, `0`, `""`, `[]`
and an empty object are falsy, everything else truthy.  Used because the
router tests payloads with `if not form_data:`. -/
def Json.isTruthy : Json → Bool
  | .null => false
  | .bool b => b
  | .num n => n != 0
  | .str s => !s.isEmpty
  | .arr xs => !xs.isEmpty
  | .obj kvs => !kvs.isEmpty

/-- Python truthiness of `load_phase_data`'s result: `None` (never saved)
is falsy, a saved payload is falsy iff the value itself is falsy. -/
def pyFalsy : Option Json → Bool
  | none => true
  | some v => !v.isTruthy

/-- Field lookup in a JSON object (`d["k"]` when present). -/
def Json.lookup : Json → String → Option Json
  | .obj kvs, k => (kvs.find? (fun kv => kv.1 == k)).map (·.2)
  | _, _ => none

/-- Whether a JSON value is an object containing the given key. -/
def Json.hasKey (j : Json) (k : String) : Bool :=
  (j.lookup k).isSome

/-- Python `s.startswith(p)`: `p` is a prefix of `s` (character-wise). -/
def pyStartsWith (s p : String) : Bool :=
  p.data.isPrefixOf s.data

/-- Python `d.get(k, dflt)`: `none` models the `AttributeError` raised when
the receiver is not a dict (the router calls `.get` on loaded payloads
without checking their shape). -/
def Json.dictGet (j : Json) (k : String) (dflt : Json) : Option Json :=
  match j with
  | .obj kvs => some (((kvs.find? (fun kv => kv.1 == k)).map (·.2)).getD dflt)
  | _ => none

/-- Modelled from the spec: the Session Store of `app/connection_logic`
(not under `src/`).  It owns the set of created session ids and a mapping
from `(session id, phase name)` to the saved JSON payload; `counter` feeds
fresh-id generation. -/
structure DataStore where
  sessions : List String
  data : List ((String × String) × Json)
  counter : Nat

/-- Modelled from the spec: `create_session` generates a fresh identifier
and registers it. -/
def DataStore.create_session (st : DataStore) : String × DataStore :=
  let sid := "session-" ++ toString st.counter
  (sid, { st with sessions := st.sessions ++ [sid], counter := st.counter + 1 })

/-- Modelled from the spec: `session_exists id` is true iff `id` was
previously created. -/
def DataStore.session_exists (st : DataStore) (sid : String) : Bool :=
  st.sessions.contains sid

/-- Modelled from the spec: `save_phase_data` persists the payload under
`(id, phase)`, overwriting any previous value, and returns `false` rather
than raising on a persistence failure.  The failure nondeterminism of the
backend is exposed as the `persistOk` argument: when it is `false` the
store is left unchanged and `false` is returned. -/
def DataStore.save_phase_data (st : DataStore) (sid phase : String)
    (payload : Json) (persistOk : Bool) : Bool × DataStore :=
  if persistOk then
    (true, { st with
      data := ((sid, phase), payload) ::
        st.data.filter (fun kv => kv.1 ≠ (sid, phase)) })
  else
    (false, st)

/-- Modelled from the spec: `load_phase_data` returns the previously saved
payload, or an absent result if never saved. -/
def DataStore.load_phase_data (st : DataStore) (sid phase : String) : Option Json :=
  (st.data.find? (fun kv => kv.1 == (sid, phase))).map (·.2)

/-- Modelled from the spec: the per-phase completion flags reported by the
store are derived purely from presence of saved payloads. -/
def DataStore.phase_complete (st : DataStore) (sid phase : String) : Bool :=
  (st.load_phase_data sid phase).isSome

/-- The record returned by the store's `get_session_status`:
four completion flags plus the derived progress percentage. -/
structure SessionStatus where
  phase1 : Bool
  phase2 : Bool
  phase3 : Bool
  phase4 : Bool
  progress_percentage : Nat
deriving DecidableEq, Repr

/-- Number of completed phases in a status record. -/
def SessionStatus.completedCount (ps : SessionStatus) : Nat :=
  ([ps.phase1, ps.phase2, ps.phase3, ps.phase4].countP (· = true))

/-- Modelled from the spec: `get_session_status` derives the flags from
presence of saved payloads and reports
`progress_percentage = completed * 100 / 4`. -/
def DataStore.get_session_status (st : DataStore) (sid : String) : SessionStatus :=
  let p1 := st.phase_complete sid "phase1"
  let p2 := st.phase_complete sid "phase2"
  let p3 := st.phase_complete sid "phase3"
  let p4 := st.phase_complete sid "phase4"
  { phase1 := p1, phase2 := p2, phase3 := p3, phase4 := p4,
    progress_percentage :=
      ([p1, p2, p3, p4].countP (· = true)) * 100 / 4 }

/-- A FastAPI `HTTPException` as seen by the client: status code plus
human-readable detail. -/
structure ApiError where
  status_code : Nat
  detail : String
deriving DecidableEq, Repr

/-- A Python exception flowing inside a router body: either an
`HTTPException` (raised explicitly by the router) or any other exception,
carrying its `str(e)` message. -/
inductive PyExc where
  | http (e : ApiError)
  | other (msg : String)
deriving DecidableEq, Repr

/-- `str(e)` for an exception: Starlette's `HTTPException.__str__` renders
`"{status_code}: {detail}"` (written here without braces); any other
exception is carried as its message. -/
def PyExc.toMessage : PyExc → String
  | .http e => toString e.status_code ++ ": " ++ e.detail
  | .other m => m

/-- The `try:` body of `phase1_form_analysis`.  `svc` is the opaque result
of `phase1_service.submit_form` — on success a pair of the `form_index`
and the stored form dict, on failure the raised exception's message. -/
def phase1_body (st : DataStore) (svc : Except String (Json × Json))
    (persistOk : Bool) : Except PyExc Json × DataStore :=
  match svc with
  | .error msg => (.error (.other msg), st)
  | .ok (form_index, form_dict) =>
    let (session_id, st1) := st.create_session
    let (success, st2) := st1.save_phase_data session_id "phase1" form_dict persistOk
    if !success then
      (.error (.http ⟨500, "Failed to save form data"⟩), st2)
    else
      (.ok (Json.obj [
        ("session_id", .str session_id),
        ("status", .str "success"),
        ("message", .str "Form data processed and saved successfully"),
        ("next_phase", .str "Phase 2: Upload facial image for analysis"),
        ("form_index", form_index),
        ("data", form_dict)]), st2)

/-- `phase1_form_analysis`: the body under its exception boundary.  The
endpoint has no `except HTTPException: raise` clause, so every exception —
the explicitly raised `HTTPException` included — is caught by
`except Exception` and re-wrapped as a 500 `"Phase 1 failed: str(e)"`. -/
def phase1_form_analysis (st : DataStore) (svc : Except String (Json × Json))
    (persistOk : Bool) : Except ApiError Json × DataStore :=
  match phase1_body st svc persistOk with
  | (.ok r, st') => (.ok r, st')
  | (.error e, st') =>
    (.error ⟨500, "Phase 1 failed: " ++ e.toMessage⟩, st')

example :
    phase1_form_analysis ⟨[], [], 0⟩ (.ok (.num 7, .obj [("skin", .str "dry")])) false
      = (.error ⟨500, "Phase 1 failed: 500: Failed to save form data"⟩,
         ⟨["session-0"], [], 1⟩) := rfl

/-- The `try:` body of `phase2_image_analysis`.  `content_type` is the
upload's declared content type (`none` when the client sent no content
type, in which case `file.content_type.startswith` raises
`AttributeError`); `svc` is the opaque outcome of `file.read`,
`phase2_service.analyze_face` and the JSON extraction that follows it. -/
def phase2_body (st : DataStore) (session_id : String)
    (content_type : Option String) (svc : Except String Json)
    (persistOk : Bool) : Except PyExc Json × DataStore :=
  if !st.session_exists session_id then
    (.error (.http ⟨404, "Session not found. Complete Phase 1 first."⟩), st)
  else
    match content_type with
    | none =>
      (.error (.other "'NoneType' object has no attribute 'startswith'"), st)
    | some ct =>
      if !pyStartsWith ct "image/" then
        (.error (.http ⟨400, "File must be an image (JPEG, PNG, etc.)"⟩), st)
      else
        match svc with
        | .error msg => (.error (.other msg), st)
        | .ok analysis_json =>
          let (success, st2) :=
            st.save_phase_data session_id "phase2" analysis_json persistOk
          if !success then
            (.error (.http ⟨500, "Failed to save analysis data"⟩), st2)
          else
            (.ok (Json.obj [
              ("session_id", .str session_id),
              ("status", .str "success"),
              ("message", .str "Image analysis completed and saved successfully"),
              ("next_phase", .str "Phase 3: Generate product recommendations"),
              ("analysis", analysis_json)]), st2)

/-- `phase2_image_analysis`: the body under its exception boundary, which
re-raises `HTTPException` unchanged and wraps any other exception as a
500 `"Phase 2 failed: str(e)"`. -/
def phase2_image_analysis (st : DataStore) (session_id : String)
    (content_type : Option String) (svc : Except String Json)
    (persistOk : Bool) : Except ApiError Json × DataStore :=
  match phase2_body st session_id content_type svc persistOk with
  | (.ok r, st') => (.ok r, st')
  | (.error (.http e), st') => (.error e, st')
  | (.error (.other m), st') => (.error ⟨500, "Phase 2 failed: " ++ m⟩, st')

/-- The `try:` body of `phase3_product_recommendations`.  `svc` is the
opaque `phase3_service.budget_distribution`, a function of the assembled
`phase3_input`. -/
def phase3_body (st : DataStore) (session_id : String)
    (svc : Json → Except String Json) (persistOk : Bool) :
    Except PyExc Json × DataStore :=
  let form_data := st.load_phase_data session_id "phase1"
  let analysis_data := st.load_phase_data session_id "phase2"
  if pyFalsy form_data then
    (.error (.http ⟨400, "Missing form data. Complete Phase 1 first."⟩), st)
  else if pyFalsy analysis_data then
    (.error (.http ⟨400, "Missing image analysis. Complete Phase 2 first."⟩), st)
  else
    let fd := form_data.getD .null
    let ad := analysis_data.getD .null
    match ad.dictGet "ai_output" ad with
    | none =>
      (.error (.other "loaded analysis payload has no attribute 'get'"), st)
    | some skin_analysis =>
      let phase3_input := Json.obj
        [("form_data", fd), ("skin_analysis", skin_analysis)]
      match svc phase3_input with
      | .error msg => (.error (.other msg), st)
      | .ok recommendations =>
        let (success, st2) :=
          st.save_phase_data session_id "phase3" recommendations persistOk
        if !success then
          (.error (.http ⟨500, "Failed to save recommendations"⟩), st2)
        else
          (.ok recommendations, st2)

/-- `phase3_product_recommendations`: the body under its exception
boundary (`HTTPException` re-raised unchanged, everything else wrapped as
500 `"Phase 3 failed: str(e)"`).  Modelled from the spec: the
`ProductRecommendationResponse(**recommendations)` construction lives in
`recommendation_schemas.py`, which is not under `src/`; per the spec the
success response is the recommendation payload itself. -/
def phase3_product_recommendations (st : DataStore) (session_id : String)
    (svc : Json → Except String Json) (persistOk : Bool) :
    Except ApiError Json × DataStore :=
  match phase3_body st session_id svc persistOk with
  | (.ok r, st') => (.ok r, st')
  | (.error (.http e), st') => (.error e, st')
  | (.error (.other m), st') => (.error ⟨500, "Phase 3 failed: " ++ m⟩, st')

/-- The `try:` body of `phase4_routine_creation`.  `svc` is the opaque
`phase4_service.create_routine`, a function of the assembled
`phase4_input`. -/
def phase4_body (st : DataStore) (session_id : String)
    (svc : Json → Except String Json) (persistOk : Bool) :
    Except PyExc Json × DataStore :=
  let form_data := st.load_phase_data session_id "phase1"
  let recommendations := st.load_phase_data session_id "phase3"
  if pyFalsy form_data then
    (.error (.http ⟨400, "Missing form data. Complete Phase 1 first."⟩), st)
  else if pyFalsy recommendations then
    (.error (.http ⟨400,
      "Missing product recommendations. Complete Phase 3 first."⟩), st)
  else
    let fd := form_data.getD .null
    let recs := recommendations.getD .null
    match recs.dictGet "products" (.obj []) with
    | none =>
      (.error (.other "loaded recommendations payload has no attribute 'get'"), st)
    | some products =>
      let phase4_input := Json.obj
        [("form_data", fd), ("product_recommendations", products)]
      match svc phase4_input with
      | .error msg => (.error (.other msg), st)
      | .ok routine_result =>
        let (success, st2) :=
          st.save_phase_data session_id "phase4" routine_result persistOk
        if !success then
          (.error (.http ⟨500, "Failed to save routine"⟩), st2)
        else
          (.ok routine_result, st2)

/-- `phase4_routine_creation`: the body under its exception boundary
(`HTTPException` re-raised unchanged, everything else wrapped as 500
`"Phase 4 failed: str(e)"`).  Modelled from the spec: the
`SkincareRoutineResponse(**routine_result)` construction lives in
`analysis_schemas.py`, which is not under `src/`; per the spec the success
response is the routine payload itself. -/
def phase4_routine_creation (st : DataStore) (session_id : String)
    (svc : Json → Except String Json) (persistOk : Bool) :
    Except ApiError Json × DataStore :=
  match phase4_body st session_id svc persistOk with
  | (.ok r, st') => (.ok r, st')
  | (.error (.http e), st') => (.error e, st')
  | (.error (.other m), st') => (.error ⟨500, "Phase 4 failed: " ++ m⟩, st')

/-- The `try:` body of `get_session_status` (the router's status
endpoint): looks the session up, reads the store's status record, derives
`completed_phases` and `next_phase`, and shapes the response.  It performs
no store writes, which the embedding makes explicit by returning the store
unchanged in every branch.  `statusResponse` is the response object the
body shapes from the store's status record: `completed_phases` and
`next_phase` derived from the flags, plus the progress and detail
fields. -/
def statusResponse (session_id : String) (ps : SessionStatus) : Json :=
  let phase_status : List (String × Bool) :=
    [("phase1", ps.phase1), ("phase2", ps.phase2),
     ("phase3", ps.phase3), ("phase4", ps.phase4)]
  let completed_phases := (phase_status.filter (·.2)).map (·.1)
  let next_phase :=
    if !ps.phase1 then "Phase 1: Submit form data"
    else if !ps.phase2 then "Phase 2: Upload facial image"
    else if !ps.phase3 then "Phase 3: Generate product recommendations"
    else if !ps.phase4 then "Phase 4: Create skincare routine"
    else "Pipeline complete!"
  Json.obj [
    ("session_id", .str session_id),
    ("completed_phases", .arr (completed_phases.map .str)),
    ("total_phases", .num 4),
    ("progress_percentage", .num ps.progress_percentage),
    ("next_phase", .str next_phase),
    ("phase_details", .obj (phase_status.map (fun pb => (pb.1, .bool pb.2)))),
    ("pipeline_complete", .bool (completed_phases.length == 4))]

/-- The session lookup and response assembly of the status endpoint's
`try:` body. -/
def get_session_status_body (st : DataStore) (session_id : String) :
    Except PyExc Json × DataStore :=
  if !st.session_exists session_id then
    (.error (.http ⟨404, "Session not found"⟩), st)
  else
    (.ok (statusResponse session_id (st.get_session_status session_id)), st)

/-- `get_session_status` endpoint: the body under its exception boundary
(`HTTPException` re-raised unchanged, everything else wrapped as 500
`"Status check failed: str(e)"`). -/
def get_session_status_route (st : DataStore) (session_id : String) :
    Except ApiError Json × DataStore :=
  match get_session_status_body st session_id with
  | (.ok r, st') => (.ok r, st')
  | (.error (.http e), st') => (.error e, st')
  | (.error (.other m), st') => (.error ⟨500, "Status check failed: " ++ m⟩, st')

/-! ## Theorems -/

/-- C4: for every existing session, phase 2 rejects any upload whose
declared content type does not start with `"image/"` with a 400
`InvalidInput` error; the result is the same for every outcome of the
image-analysis service (so the service is never consulted) and the store
is returned unchanged (nothing is saved). -/
theorem phase2_rejects_non_image_upload (st : DataStore) (sid ct : String)
    (svc : Except String Json) (persistOk : Bool)
    (hsess : st.session_exists sid = true)
    (hct : pyStartsWith ct "image/" = false) :
    phase2_image_analysis st sid (some ct) svc persistOk
      = (.error ⟨400, "File must be an image (JPEG, PNG, etc.)"⟩, st) := by
  simp [phase2_image_analysis, phase2_body, hsess, hct]

/-- Witness for `phase2_rejects_non_image_upload` at a concrete store and
a `text/plain` upload. -/
theorem phase2_rejects_non_image_upload_witness :
    (DataStore.session_exists ⟨["s1"], [], 1⟩ "s1" = true)
    ∧ (pyStartsWith "text/plain" "image/" = false)
    ∧ phase2_image_analysis ⟨["s1"], [], 1⟩ "s1" (some "text/plain")
        (.ok (.obj [("tone", .str "fair")])) true
      = (.error ⟨400, "File must be an image (JPEG, PNG, etc.)"⟩, ⟨["s1"], [], 1⟩) :=
  ⟨rfl, rfl, phase2_rejects_non_image_upload _ _ _ _ _ rfl rfl⟩

/-- C9: when the upload carries no declared content type, the prefix check
raises (`AttributeError` on `None`), so phase 2 answers through the
catch-all boundary with a 500 whose detail starts with `"Phase 2 failed"`
— not with the 400 `InvalidInput` error — and the 400 branch is reached
only when a content type string is present. -/
theorem phase2_missing_content_type_catch_all (st : DataStore) (sid : String)
    (svc : Except String Json) (persistOk : Bool)
    (hsess : st.session_exists sid = true) :
    ((phase2_image_analysis st sid none svc persistOk).1
        = .error ⟨500,
            "Phase 2 failed: 'NoneType' object has no attribute 'startswith'"⟩
      ∧ (phase2_image_analysis st sid none svc persistOk).2 = st)
    ∧ ∀ ct : Option String,
        ((phase2_image_analysis st sid ct svc persistOk).1
          = .error ⟨400, "File must be an image (JPEG, PNG, etc.)"⟩) →
        ct.isSome = true := by
  constructor
  · constructor <;> simp [phase2_image_analysis, phase2_body, hsess]
  · intro ct h
    cases ct with
    | some ct => rfl
    | none =>
      simp [phase2_image_analysis, phase2_body, hsess] at h
  
/-- Witness for `phase2_missing_content_type_catch_all` at a concrete
store. -/
theorem phase2_missing_content_type_catch_all_witness :
    (DataStore.session_exists ⟨["s1"], [], 1⟩ "s1" = true)
    ∧ (phase2_image_analysis ⟨["s1"], [], 1⟩ "s1" none (.ok .null) true).1
        = .error ⟨500,
            "Phase 2 failed: 'NoneType' object has no attribute 'startswith'"⟩ :=
  ⟨rfl, (phase2_missing_content_type_catch_all ⟨["s1"], [], 1⟩ "s1"
      (.ok .null) true rfl).1.1⟩

/-- C10: phase 1 is not atomic on storage failure: when the service call
succeeds but the save returns `false`, the endpoint returns the 500 error
(re-wrapped by its catch-all), yet the session created before the save
attempt still exists in the resulting store. -/
theorem phase1_session_persists_on_save_failure (st : DataStore) (fi fd : Json) :
    ∃ st' : DataStore,
      phase1_form_analysis st (.ok (fi, fd)) false
        = (.error ⟨500, "Phase 1 failed: 500: Failed to save form data"⟩, st')
      ∧ st'.session_exists (st.create_session).1 = true := by
  refine ⟨(st.create_session).2, ?_, ?_⟩
  · simp only [phase1_form_analysis, phase1_body, DataStore.create_session,
      DataStore.save_phase_data, PyExc.toMessage, if_false, Bool.not_false]
    rfl
  · simp [DataStore.session_exists, DataStore.create_session]

/-- C8: the phase 3 / phase 4 precondition checks test Python truthiness,
not presence: a predecessor payload saved as the empty (falsy) JSON object
is treated exactly like a missing one — the endpoint fails with the 400
"Missing ..." error and leaves the store unchanged. -/
theorem phase34_treat_falsy_payload_as_missing (st : DataStore) (sid : String)
    (svc3 svc4 : Json → Except String Json) (persistOk : Bool) :
    (st.load_phase_data sid "phase1" = some (.obj []) →
       phase3_product_recommendations st sid svc3 persistOk
         = (.error ⟨400, "Missing form data. Complete Phase 1 first."⟩, st)
       ∧ phase4_routine_creation st sid svc4 persistOk
         = (.error ⟨400, "Missing form data. Complete Phase 1 first."⟩, st))
    ∧ (∀ d1 : Json, st.load_phase_data sid "phase1" = some d1 →
        d1.isTruthy = true →
        (st.load_phase_data sid "phase2" = some (.obj []) →
          phase3_product_recommendations st sid svc3 persistOk
            = (.error ⟨400, "Missing image analysis. Complete Phase 2 first."⟩, st))
        ∧ (st.load_phase_data sid "phase3" = some (.obj []) →
          phase4_routine_creation st sid svc4 persistOk
            = (.error ⟨400,
                "Missing product recommendations. Complete Phase 3 first."⟩, st))) := by
  refine ⟨fun h1 => ⟨?_, ?_⟩, fun d1 h1 hd1 => ⟨fun h2 => ?_, fun h3 => ?_⟩⟩
  · simp [phase3_product_recommendations, phase3_body, h1, pyFalsy, Json.isTruthy]
  · simp [phase4_routine_creation, phase4_body, h1, pyFalsy, Json.isTruthy]
  · have hfalse : pyFalsy (some d1) = false := by simp [pyFalsy, hd1]
    have htrue : pyFalsy (some (Json.obj [])) = true := rfl
    simp [phase3_product_recommendations, phase3_body, h1, h2, hfalse, htrue]
  · have hfalse : pyFalsy (some d1) = false := by simp [pyFalsy, hd1]
    have htrue : pyFalsy (some (Json.obj [])) = true := rfl
    simp [phase4_routine_creation, phase4_body, h1, h3, hfalse, htrue]

/-- Witness for `phase34_treat_falsy_payload_as_missing` at two concrete
stores: one whose phase-1 payload is the empty object, and one with a
truthy phase-1 payload but empty phase-2 and phase-3 payloads. -/
theorem phase34_treat_falsy_payload_as_missing_witness :
    (DataStore.load_phase_data ⟨["s1"], [(("s1", "phase1"), Json.obj [])], 1⟩
        "s1" "phase1" = some (.obj []))
    ∧ phase3_product_recommendations
        ⟨["s1"], [(("s1", "phase1"), Json.obj [])], 1⟩ "s1"
        (fun _ => .ok .null) true
      = (.error ⟨400, "Missing form data. Complete Phase 1 first."⟩,
         ⟨["s1"], [(("s1", "phase1"), Json.obj [])], 1⟩)
    ∧ phase3_product_recommendations
        ⟨["s1"], [(("s1", "phase1"), Json.obj [("skin", .str "dry")]),
                  (("s1", "phase2"), Json.obj []),
                  (("s1", "phase3"), Json.obj [])], 1⟩ "s1"
        (fun _ => .ok .null) true
      = (.error ⟨400, "Missing image analysis. Complete Phase 2 first."⟩,
         ⟨["s1"], [(("s1", "phase1"), Json.obj [("skin", .str "dry")]),
                   (("s1", "phase2"), Json.obj []),
                   (("s1", "phase3"), Json.obj [])], 1⟩)
    ∧ phase4_routine_creation
        ⟨["s1"], [(("s1", "phase1"), Json.obj [("skin", .str "dry")]),
                  (("s1", "phase2"), Json.obj []),
                  (("s1", "phase3"), Json.obj [])], 1⟩ "s1"
        (fun _ => .ok .null) true
      = (.error ⟨400, "Missing product recommendations. Complete Phase 3 first."⟩,
         ⟨["s1"], [(("s1", "phase1"), Json.obj [("skin", .str "dry")]),
                   (("s1", "phase2"), Json.obj []),
                   (("s1", "phase3"), Json.obj [])], 1⟩) :=
  ⟨rfl,
   ((phase34_treat_falsy_payload_as_missing
       ⟨["s1"], [(("s1", "phase1"), Json.obj [])], 1⟩ "s1"
       (fun _ => .ok .null) (fun _ => .ok .null) true).1 rfl).1,
   (((phase34_treat_falsy_payload_as_missing
       ⟨["s1"], [(("s1", "phase1"), Json.obj [("skin", .str "dry")]),
                 (("s1", "phase2"), Json.obj []),
                 (("s1", "phase3"), Json.obj [])], 1⟩ "s1"
       (fun _ => .ok .null) (fun _ => .ok .null) true).2
      (.obj [("skin", .str "dry")]) rfl rfl).1 rfl),
   (((phase34_treat_falsy_payload_as_missing
       ⟨["s1"], [(("s1", "phase1"), Json.obj [("skin", .str "dry")]),
                 (("s1", "phase2"), Json.obj []),
                 (("s1", "phase3"), Json.obj [])], 1⟩ "s1"
       (fun _ => .ok .null) (fun _ => .ok .null) true).2
      (.obj [("skin", .str "dry")]) rfl rfl).2 rfl)⟩

/-- C1: invoking phase 2 with an unknown session id fails with the 404
NotFound error naming phase 1; invoking phase 3 or phase 4 before their
required predecessor phases' data has been saved fails with the 400
precondition error naming the missing phase; in every such case the store
is returned unchanged — no partial phase record is created. -/
theorem precondition_failures_perform_no_save (st : DataStore) (sid : String)
    (ct : Option String) (svc2 : Except String Json)
    (svc3 svc4 : Json → Except String Json) (persistOk : Bool) :
    (st.session_exists sid = false →
       phase2_image_analysis st sid ct svc2 persistOk
         = (.error ⟨404, "Session not found. Complete Phase 1 first."⟩, st))
    ∧ (st.load_phase_data sid "phase1" = none →
       phase3_product_recommendations st sid svc3 persistOk
         = (.error ⟨400, "Missing form data. Complete Phase 1 first."⟩, st)
       ∧ phase4_routine_creation st sid svc4 persistOk
         = (.error ⟨400, "Missing form data. Complete Phase 1 first."⟩, st))
    ∧ (∀ d1 : Json, st.load_phase_data sid "phase1" = some d1 →
        d1.isTruthy = true →
        (st.load_phase_data sid "phase2" = none →
          phase3_product_recommendations st sid svc3 persistOk
            = (.error ⟨400, "Missing image analysis. Complete Phase 2 first."⟩, st))
        ∧ (st.load_phase_data sid "phase3" = none →
          phase4_routine_creation st sid svc4 persistOk
            = (.error ⟨400,
                "Missing product recommendations. Complete Phase 3 first."⟩, st))) := by
  refine ⟨fun hsess => ?_,
    fun h1 => ⟨?_, ?_⟩,
    fun d1 h1 hd1 => ⟨fun h2 => ?_, fun h3 => ?_⟩⟩
  · simp [phase2_image_analysis, phase2_body, hsess]
  · simp [phase3_product_recommendations, phase3_body, h1, pyFalsy]
  · simp [phase4_routine_creation, phase4_body, h1, pyFalsy]
  · simp [phase3_product_recommendations, phase3_body, h1, h2, hd1, pyFalsy]
  · simp [phase4_routine_creation, phase4_body, h1, h3, hd1, pyFalsy]

/-- Witness for `precondition_failures_perform_no_save` at the empty store
(unknown session; nothing saved) and at a store holding only a truthy
phase-1 payload. -/
theorem precondition_failures_perform_no_save_witness :
    (DataStore.session_exists ⟨[], [], 0⟩ "s1" = false)
    ∧ phase2_image_analysis ⟨[], [], 0⟩ "s1" (some "image/png")
        (.ok .null) true
      = (.error ⟨404, "Session not found. Complete Phase 1 first."⟩, ⟨[], [], 0⟩)
    ∧ phase3_product_recommendations ⟨[], [], 0⟩ "s1" (fun _ => .ok .null) true
      = (.error ⟨400, "Missing form data. Complete Phase 1 first."⟩, ⟨[], [], 0⟩)
    ∧ phase4_routine_creation ⟨[], [], 0⟩ "s1" (fun _ => .ok .null) true
      = (.error ⟨400, "Missing form data. Complete Phase 1 first."⟩, ⟨[], [], 0⟩)
    ∧ phase3_product_recommendations
        ⟨["s1"], [(("s1", "phase1"), Json.obj [("skin", .str "dry")])], 1⟩ "s1"
        (fun _ => .ok .null) true
      = (.error ⟨400, "Missing image analysis. Complete Phase 2 first."⟩,
         ⟨["s1"], [(("s1", "phase1"), Json.obj [("skin", .str "dry")])], 1⟩)
    ∧ phase4_routine_creation
        ⟨["s1"], [(("s1", "phase1"), Json.obj [("skin", .str "dry")])], 1⟩ "s1"
        (fun _ => .ok .null) true
      = (.error ⟨400, "Missing product recommendations. Complete Phase 3 first."⟩,
         ⟨["s1"], [(("s1", "phase1"), Json.obj [("skin", .str "dry")])], 1⟩) :=
  ⟨rfl,
   (precondition_failures_perform_no_save ⟨[], [], 0⟩ "s1" (some "image/png")
      (.ok .null) (fun _ => .ok .null) (fun _ => .ok .null) true).1 rfl,
   ((precondition_failures_perform_no_save ⟨[], [], 0⟩ "s1" (some "image/png")
      (.ok .null) (fun _ => .ok .null) (fun _ => .ok .null) true).2.1 rfl).1,
   ((precondition_failures_perform_no_save ⟨[], [], 0⟩ "s1" (some "image/png")
      (.ok .null) (fun _ => .ok .null) (fun _ => .ok .null) true).2.1 rfl).2,
   (((precondition_failures_perform_no_save
       ⟨["s1"], [(("s1", "phase1"), Json.obj [("skin", .str "dry")])], 1⟩ "s1"
       (some "image/png") (.ok .null) (fun _ => .ok .null)
       (fun _ => .ok .null) true).2.2
      (.obj [("skin", .str "dry")]) rfl rfl).1 rfl),
   (((precondition_failures_perform_no_save
       ⟨["s1"], [(("s1", "phase1"), Json.obj [("skin", .str "dry")])], 1⟩ "s1"
       (some "image/png") (.ok .null) (fun _ => .ok .null)
       (fun _ => .ok .null) true).2.2
      (.obj [("skin", .str "dry")]) rfl rfl).2 rfl)⟩

/-- The `next_phase` labels in pipeline order, as the router emits them. -/
def phaseLabels : List String :=
  ["Phase 1: Submit form data", "Phase 2: Upload facial image",
   "Phase 3: Generate product recommendations", "Phase 4: Create skincare routine"]

/-- Specification-side reading of the status scan: the label attached to
the first `false` flag in pipeline order, or the complete marker when all
four flags are `true`. -/
def firstIncompleteLabel (flags : List Bool) : String :=
  match (flags.zip phaseLabels).find? (fun fl => !fl.1) with
  | some fl => fl.2
  | none => "Pipeline complete!"

/-- The `next_phase` field of the shaped status response is the label of
the first incomplete phase in scan order. -/
theorem statusResponse_lookup_next_phase (sid : String) (ps : SessionStatus) :
    (statusResponse sid ps).lookup "next_phase"
      = some (.str (firstIncompleteLabel
          [ps.phase1, ps.phase2, ps.phase3, ps.phase4])) := by
  obtain ⟨p1, p2, p3, p4, pp⟩ := ps
  cases p1 <;> cases p2 <;> cases p3 <;> cases p4 <;> rfl

/-- When the session exists, the status endpoint returns the shaped
response and the unchanged store. -/
theorem get_session_status_route_ok (st : DataStore) (sid : String)
    (hsess : st.session_exists sid = true) :
    get_session_status_route st sid
      = (.ok (statusResponse sid (st.get_session_status sid)), st) := by
  simp [get_session_status_route, get_session_status_body, hsess]

/-- C5: for every existing session the status endpoint performs no store
write (the store comes back unchanged) and reports as `next_phase` the
label of the first incomplete phase when the completion flags are scanned
in the fixed order phase1, phase2, phase3, phase4 — or the
`"Pipeline complete!"` marker when all four are complete. -/
theorem status_next_phase_first_incomplete (st : DataStore) (sid : String)
    (hsess : st.session_exists sid = true) :
    (get_session_status_route st sid).2 = st
    ∧ ∃ r : Json, (get_session_status_route st sid).1 = .ok r
        ∧ r.lookup "next_phase"
          = some (.str (firstIncompleteLabel
              [st.phase_complete sid "phase1", st.phase_complete sid "phase2",
               st.phase_complete sid "phase3", st.phase_complete sid "phase4"])) := by
  have hroute := get_session_status_route_ok st sid hsess
  refine ⟨by rw [hroute], statusResponse sid (st.get_session_status sid),
    by rw [hroute], ?_⟩
  rw [statusResponse_lookup_next_phase]
  rfl

/-- Witness for `status_next_phase_first_incomplete` at a concrete store
holding phase-1 and phase-2 payloads, whose next phase is phase 3. -/
theorem status_next_phase_first_incomplete_witness :
    (DataStore.session_exists
        ⟨["s1"], [(("s1", "phase1"), Json.obj [("skin", .str "dry")]),
                  (("s1", "phase2"), Json.obj [("tone", .str "fair")])], 1⟩
        "s1" = true)
    ∧ (get_session_status_route
        ⟨["s1"], [(("s1", "phase1"), Json.obj [("skin", .str "dry")]),
                  (("s1", "phase2"), Json.obj [("tone", .str "fair")])], 1⟩
        "s1").2
      = ⟨["s1"], [(("s1", "phase1"), Json.obj [("skin", .str "dry")]),
                  (("s1", "phase2"), Json.obj [("tone", .str "fair")])], 1⟩
    ∧ ∃ r : Json,
        (get_session_status_route
          ⟨["s1"], [(("s1", "phase1"), Json.obj [("skin", .str "dry")]),
                    (("s1", "phase2"), Json.obj [("tone", .str "fair")])], 1⟩
          "s1").1 = .ok r
        ∧ r.lookup "next_phase"
          = some (.str "Phase 3: Generate product recommendations") :=
  ⟨rfl,
   (status_next_phase_first_incomplete
      ⟨["s1"], [(("s1", "phase1"), Json.obj [("skin", .str "dry")]),
                (("s1", "phase2"), Json.obj [("tone", .str "fair")])], 1⟩
      "s1" rfl).1,
   (status_next_phase_first_incomplete
      ⟨["s1"], [(("s1", "phase1"), Json.obj [("skin", .str "dry")]),
                (("s1", "phase2"), Json.obj [("tone", .str "fair")])], 1⟩
      "s1" rfl).2⟩

/-- Number of phases of a session whose payload is present in the store. -/
def DataStore.completedCount (st : DataStore) (sid : String) : Nat :=
  ["phase1", "phase2", "phase3", "phase4"].countP
    (fun p => st.phase_complete sid p)

/-- C7: for every existing session the status endpoint reports
`progress_percentage = 100 * completedCount / 4`, where `completedCount`
is the number of phases whose payload is present. -/
theorem status_progress_percentage_formula (st : DataStore) (sid : String)
    (hsess : st.session_exists sid = true) :
    ∃ r : Json, (get_session_status_route st sid).1 = .ok r
      ∧ r.lookup "progress_percentage"
        = some (.num (100 * st.completedCount sid / 4)) := by
  have hroute := get_session_status_route_ok st sid hsess
  have hlook : (statusResponse sid (st.get_session_status sid)).lookup
      "progress_percentage"
      = some (.num (st.get_session_status sid).progress_percentage) := rfl
  refine ⟨statusResponse sid (st.get_session_status sid), by rw [hroute], ?_⟩
  rw [hlook]
  have harith : (st.get_session_status sid).progress_percentage
      = 100 * st.completedCount sid / 4 := by
    simp only [DataStore.get_session_status, DataStore.completedCount,
      List.countP_cons, List.countP_nil]
    cases st.phase_complete sid "phase1" <;>
    cases st.phase_complete sid "phase2" <;>
    cases st.phase_complete sid "phase3" <;>
    cases st.phase_complete sid "phase4" <;> rfl
  rw [harith]
  simp only [Option.some.injEq, Json.num.injEq]
  omega

/-- Witness for `status_progress_percentage_formula` at a concrete store
with two completed phases (progress 50). -/
theorem status_progress_percentage_formula_witness :
    (DataStore.session_exists
        ⟨["s1"], [(("s1", "phase1"), Json.obj [("skin", .str "dry")]),
                  (("s1", "phase2"), Json.obj [("tone", .str "fair")])], 1⟩
        "s1" = true)
    ∧ (DataStore.completedCount
        ⟨["s1"], [(("s1", "phase1"), Json.obj [("skin", .str "dry")]),
                  (("s1", "phase2"), Json.obj [("tone", .str "fair")])], 1⟩
        "s1" = 2)
    ∧ ∃ r : Json,
        (get_session_status_route
          ⟨["s1"], [(("s1", "phase1"), Json.obj [("skin", .str "dry")]),
                    (("s1", "phase2"), Json.obj [("tone", .str "fair")])], 1⟩
          "s1").1 = .ok r
        ∧ r.lookup "progress_percentage" = some (.num 50) :=
  ⟨rfl, rfl,
   (status_progress_percentage_formula
      ⟨["s1"], [(("s1", "phase1"), Json.obj [("skin", .str "dry")]),
                (("s1", "phase2"), Json.obj [("tone", .str "fair")])], 1⟩
      "s1" rfl)⟩

/-- With a failing save, the phase 1 body never produces a success. -/
theorem phase1_body_save_fail_not_ok (st : DataStore)
    (svc : Except String (Json × Json)) (r : Json) (st' : DataStore) :
    phase1_body st svc false ≠ (.ok r, st') := by
  unfold phase1_body DataStore.create_session DataStore.save_phase_data
  rcases svc with m | ⟨fi, fd⟩ <;> simp

/-- With a failing save, the phase 2 body never produces a success. -/
theorem phase2_body_save_fail_not_ok (st : DataStore) (sid : String)
    (ct : Option String) (svc : Except String Json) (r : Json) (st' : DataStore) :
    phase2_body st sid ct svc false ≠ (.ok r, st') := by
  unfold phase2_body DataStore.save_phase_data
  cases hs : st.session_exists sid <;> simp [hs]
  cases ct with
  | none => simp
  | some c =>
    cases hc : pyStartsWith c "image/" <;> simp [hc]
    rcases svc with m | a <;> simp

/-- With a failing save, the phase 3 body never produces a success. -/
theorem phase3_body_save_fail_not_ok (st : DataStore) (sid : String)
    (svc : Json → Except String Json) (r : Json) (st' : DataStore) :
    phase3_body st sid svc false ≠ (.ok r, st') := by
  unfold phase3_body DataStore.save_phase_data
  cases h1 : pyFalsy (st.load_phase_data sid "phase1") <;> simp [h1]
  cases h2 : pyFalsy (st.load_phase_data sid "phase2") <;> simp [h2]
  rcases hg : ((st.load_phase_data sid "phase2").getD .null).dictGet "ai_output"
      ((st.load_phase_data sid "phase2").getD .null) with _ | sk <;> simp [hg]
  rcases hsv : svc (Json.obj
      [("form_data", (st.load_phase_data sid "phase1").getD .null),
       ("skin_analysis", sk)]) with m | rec <;> simp [hsv]

/-- With a failing save, the phase 4 body never produces a success. -/
theorem phase4_body_save_fail_not_ok (st : DataStore) (sid : String)
    (svc : Json → Except String Json) (r : Json) (st' : DataStore) :
    phase4_body st sid svc false ≠ (.ok r, st') := by
  unfold phase4_body DataStore.save_phase_data
  cases h1 : pyFalsy (st.load_phase_data sid "phase1") <;> simp [h1]
  cases h3 : pyFalsy (st.load_phase_data sid "phase3") <;> simp [h3]
  rcases hg : ((st.load_phase_data sid "phase3").getD .null).dictGet "products"
      (.obj []) with _ | pr <;> simp [hg]
  rcases hsv : svc (Json.obj
      [("form_data", (st.load_phase_data sid "phase1").getD .null),
       ("product_recommendations", pr)]) with m | rt <;> simp [hsv]

/-- C6: when `save_phase_data` returns `false` the router surfaces an
HTTP-500 error — phase 1 through its catch-all re-wrap, phases 2–4 through
the explicit `StorageFailure` `HTTPException` — and no phase endpoint ever
returns a success while its save returned `false`. -/
theorem save_failure_never_silent (st : DataStore) (sid ct : String)
    (fi fd d1 rec routine : Json) (kvs2 kvs3 : List (String × Json))
    (a2 : Json) (svc3 svc4 : Json → Except String Json) :
    ((phase1_form_analysis st (.ok (fi, fd)) false).1
        = .error ⟨500, "Phase 1 failed: 500: Failed to save form data"⟩)
    ∧ (st.session_exists sid = true → pyStartsWith ct "image/" = true →
        phase2_image_analysis st sid (some ct) (.ok a2) false
          = (.error ⟨500, "Failed to save analysis data"⟩, st))
    ∧ (st.load_phase_data sid "phase1" = some d1 → d1.isTruthy = true →
       st.load_phase_data sid "phase2" = some (.obj kvs2) →
       kvs2.isEmpty = false →
       (∀ x : Json, svc3 x = .ok rec) →
        phase3_product_recommendations st sid svc3 false
          = (.error ⟨500, "Failed to save recommendations"⟩, st))
    ∧ (st.load_phase_data sid "phase1" = some d1 → d1.isTruthy = true →
       st.load_phase_data sid "phase3" = some (.obj kvs3) →
       kvs3.isEmpty = false →
       (∀ x : Json, svc4 x = .ok routine) →
        phase4_routine_creation st sid svc4 false
          = (.error ⟨500, "Failed to save routine"⟩, st))
    ∧ (∀ (svc1 : Except String (Json × Json)) (cto : Option String)
         (svc2 : Except String Json) (r : Json) (st' : DataStore),
        phase1_form_analysis st svc1 false ≠ (.ok r, st')
        ∧ phase2_image_analysis st sid cto svc2 false ≠ (.ok r, st')
        ∧ phase3_product_recommendations st sid svc3 false ≠ (.ok r, st')
        ∧ phase4_routine_creation st sid svc4 false ≠ (.ok r, st')) := by
  refine ⟨?_, ?_, ?_, ?_, ?_⟩
  · simp only [phase1_form_analysis, phase1_body, DataStore.create_session,
      DataStore.save_phase_data, if_false, Bool.not_false]
    rfl
  · intro hs hc
    simp [phase2_image_analysis, phase2_body, hs, hc, DataStore.save_phase_data]
  · intro h1 hd1 h2 hk2 hsvc
    have hfalse1 : pyFalsy (some d1) = false := by
      simp [pyFalsy, hd1]
    have hfalse2 : pyFalsy (some (Json.obj kvs2)) = false := by
      simp [pyFalsy, Json.isTruthy, hk2]
    simp [phase3_product_recommendations, phase3_body, h1, h2,
      hfalse1, hfalse2, Json.dictGet, hsvc, DataStore.save_phase_data]
  · intro h1 hd1 h3 hk3 hsvc
    have hfalse1 : pyFalsy (some d1) = false := by
      simp [pyFalsy, hd1]
    have hfalse3 : pyFalsy (some (Json.obj kvs3)) = false := by
      simp [pyFalsy, Json.isTruthy, hk3]
    simp [phase4_routine_creation, phase4_body, h1, h3,
      hfalse1, hfalse3, Json.dictGet, hsvc, DataStore.save_phase_data]
  · intro svc1 cto svc2 r st'
    refine ⟨?_, ?_, ?_, ?_⟩
    · intro h
      rcases hb : phase1_body st svc1 false with ⟨e | v, st2⟩
      · rw [phase1_form_analysis, hb] at h
        simp at h
      · exact phase1_body_save_fail_not_ok st svc1 v st2 hb
    · intro h
      rcases hb : phase2_body st sid cto svc2 false with ⟨e | v, st2⟩
      · rw [phase2_image_analysis, hb] at h
        rcases e with e' | m <;> simp at h
      · exact phase2_body_save_fail_not_ok st sid cto svc2 v st2 hb
    · intro h
      rcases hb : phase3_body st sid svc3 false with ⟨e | v, st2⟩
      · rw [phase3_product_recommendations, hb] at h
        rcases e with e' | m <;> simp at h
      · exact phase3_body_save_fail_not_ok st sid svc3 v st2 hb
    · intro h
      rcases hb : phase4_body st sid svc4 false with ⟨e | v, st2⟩
      · rw [phase4_routine_creation, hb] at h
        rcases e with e' | m <;> simp at h
      · exact phase4_body_save_fail_not_ok st sid svc4 v st2 hb

/-- Witness for `save_failure_never_silent` at a concrete store holding
truthy phase-1, phase-2 and phase-3 payloads. -/
theorem save_failure_never_silent_witness :
    ((phase1_form_analysis
        ⟨["s1"], [(("s1", "phase1"), Json.obj [("skin", .str "dry")]),
                  (("s1", "phase2"), Json.obj [("tone", .str "fair")]),
                  (("s1", "phase3"), Json.obj [("products", .obj [("c", .str "x")])])], 1⟩
        (.ok (.num 0, .obj [("a", .num 1)])) false).1
      = .error ⟨500, "Phase 1 failed: 500: Failed to save form data"⟩)
    ∧ phase2_image_analysis
        ⟨["s1"], [(("s1", "phase1"), Json.obj [("skin", .str "dry")]),
                  (("s1", "phase2"), Json.obj [("tone", .str "fair")]),
                  (("s1", "phase3"), Json.obj [("products", .obj [("c", .str "x")])])], 1⟩
        "s1" (some "image/png") (.ok (.obj [("tone", .str "fair")])) false
      = (.error ⟨500, "Failed to save analysis data"⟩,
         ⟨["s1"], [(("s1", "phase1"), Json.obj [("skin", .str "dry")]),
                   (("s1", "phase2"), Json.obj [("tone", .str "fair")]),
                   (("s1", "phase3"), Json.obj [("products", .obj [("c", .str "x")])])], 1⟩)
    ∧ phase3_product_recommendations
        ⟨["s1"], [(("s1", "phase1"), Json.obj [("skin", .str "dry")]),
                  (("s1", "phase2"), Json.obj [("tone", .str "fair")]),
                  (("s1", "phase3"), Json.obj [("products", .obj [("c", .str "x")])])], 1⟩
        "s1" (fun _ => .ok (.obj [("p", .num 1)])) false
      = (.error ⟨500, "Failed to save recommendations"⟩,
         ⟨["s1"], [(("s1", "phase1"), Json.obj [("skin", .str "dry")]),
                   (("s1", "phase2"), Json.obj [("tone", .str "fair")]),
                   (("s1", "phase3"), Json.obj [("products", .obj [("c", .str "x")])])], 1⟩)
    ∧ phase4_routine_creation
        ⟨["s1"], [(("s1", "phase1"), Json.obj [("skin", .str "dry")]),
                  (("s1", "phase2"), Json.obj [("tone", .str "fair")]),
                  (("s1", "phase3"), Json.obj [("products", .obj [("c", .str "x")])])], 1⟩
        "s1" (fun _ => .ok (.obj [("r", .num 2)])) false
      = (.error ⟨500, "Failed to save routine"⟩,
         ⟨["s1"], [(("s1", "phase1"), Json.obj [("skin", .str "dry")]),
                   (("s1", "phase2"), Json.obj [("tone", .str "fair")]),
                   (("s1", "phase3"), Json.obj [("products", .obj [("c", .str "x")])])], 1⟩)
    ∧ phase3_product_recommendations
        ⟨["s1"], [(("s1", "phase1"), Json.obj [("skin", .str "dry")]),
                  (("s1", "phase2"), Json.obj [("tone", .str "fair")]),
                  (("s1", "phase3"), Json.obj [("products", .obj [("c", .str "x")])])], 1⟩
        "s1" (fun _ => .ok (.obj [("p", .num 1)])) false
      ≠ (.ok (.obj []),
         ⟨["s1"], [(("s1", "phase1"), Json.obj [("skin", .str "dry")]),
                   (("s1", "phase2"), Json.obj [("tone", .str "fair")]),
                   (("s1", "phase3"), Json.obj [("products", .obj [("c", .str "x")])])], 1⟩) := by
  have T := save_failure_never_silent
    ⟨["s1"], [(("s1", "phase1"), Json.obj [("skin", .str "dry")]),
              (("s1", "phase2"), Json.obj [("tone", .str "fair")]),
              (("s1", "phase3"), Json.obj [("products", .obj [("c", .str "x")])])], 1⟩
    "s1" "image/png" (.num 0) (.obj [("a", .num 1)])
    (.obj [("skin", .str "dry")]) (.obj [("p", .num 1)]) (.obj [("r", .num 2)])
    [("tone", .str "fair")] [("products", .obj [("c", .str "x")])]
    (.obj [("tone", .str "fair")])
    (fun _ => .ok (.obj [("p", .num 1)])) (fun _ => .ok (.obj [("r", .num 2)]))
  exact ⟨T.1, T.2.1 rfl rfl,
    T.2.2.1 rfl rfl rfl rfl (fun x => rfl),
    T.2.2.2.1 rfl rfl rfl rfl (fun x => rfl),
    (T.2.2.2.2 (.ok (.num 0, .obj [("a", .num 1)])) (some "image/png")
      (.ok .null) (.obj []) _).2.2.1⟩

/-- C3 counterexample: in phase 1 the explicitly raised storage-failure
`HTTPException` does NOT pass through unchanged — the catch-all re-wraps
it, producing a different error value (`"Phase 1 failed: 500: Failed to
save form data"` instead of `"Failed to save form data"`). -/
theorem phase1_rewraps_storage_http_exception :
    phase1_body ⟨[], [], 0⟩ (.ok (.num 0, .obj [("a", .num 1)])) false
      = (.error (.http ⟨500, "Failed to save form data"⟩), ⟨["session-0"], [], 1⟩)
    ∧ (phase1_form_analysis ⟨[], [], 0⟩ (.ok (.num 0, .obj [("a", .num 1)])) false).1
      = .error ⟨500, "Phase 1 failed: 500: Failed to save form data"⟩
    ∧ (⟨500, "Phase 1 failed: 500: Failed to save form data"⟩ : ApiError)
      ≠ (⟨500, "Failed to save form data"⟩ : ApiError) :=
  ⟨rfl, rfl, by decide⟩

/-- C3 amended: in phases 2, 3, 4 and the status endpoint the explicitly
raised `HTTPException` variants pass through the boundary unchanged and
only other exceptions are re-wrapped as a generic 500 carrying the phase
number and original message; in phase 1, which lacks the
`except HTTPException: raise` clause, every exception — its own raised
`HTTPException` included — is re-wrapped as 500 `"Phase 1 failed: str(e)"`. -/
theorem router_exception_boundary (st st' : DataStore) (sid : String)
    (ct : Option String) (svc1 : Except String (Json × Json))
    (svc2 : Except String Json) (svc3 svc4 : Json → Except String Json)
    (persistOk : Bool) (e : ApiError) (m : String) :
    (phase1_body st svc1 persistOk = (.error (.http e), st') →
       phase1_form_analysis st svc1 persistOk
         = (.error ⟨500,
             "Phase 1 failed: " ++ (toString e.status_code ++ ": " ++ e.detail)⟩,
            st'))
    ∧ (phase1_body st svc1 persistOk = (.error (.other m), st') →
       phase1_form_analysis st svc1 persistOk
         = (.error ⟨500, "Phase 1 failed: " ++ m⟩, st'))
    ∧ (phase2_body st sid ct svc2 persistOk = (.error (.http e), st') →
       phase2_image_analysis st sid ct svc2 persistOk = (.error e, st'))
    ∧ (phase2_body st sid ct svc2 persistOk = (.error (.other m), st') →
       phase2_image_analysis st sid ct svc2 persistOk
         = (.error ⟨500, "Phase 2 failed: " ++ m⟩, st'))
    ∧ (phase3_body st sid svc3 persistOk = (.error (.http e), st') →
       phase3_product_recommendations st sid svc3 persistOk = (.error e, st'))
    ∧ (phase3_body st sid svc3 persistOk = (.error (.other m), st') →
       phase3_product_recommendations st sid svc3 persistOk
         = (.error ⟨500, "Phase 3 failed: " ++ m⟩, st'))
    ∧ (phase4_body st sid svc4 persistOk = (.error (.http e), st') →
       phase4_routine_creation st sid svc4 persistOk = (.error e, st'))
    ∧ (phase4_body st sid svc4 persistOk = (.error (.other m), st') →
       phase4_routine_creation st sid svc4 persistOk
         = (.error ⟨500, "Phase 4 failed: " ++ m⟩, st'))
    ∧ (get_session_status_body st sid = (.error (.http e), st') →
       get_session_status_route st sid = (.error e, st')) := by
  refine ⟨fun h => ?_, fun h => ?_, fun h => ?_, fun h => ?_, fun h => ?_,
    fun h => ?_, fun h => ?_, fun h => ?_, fun h => ?_⟩
  · rw [phase1_form_analysis, h]
    rfl
  · rw [phase1_form_analysis, h]
    rfl
  · rw [phase2_image_analysis, h]
  · rw [phase2_image_analysis, h]
  · rw [phase3_product_recommendations, h]
  · rw [phase3_product_recommendations, h]
  · rw [phase4_routine_creation, h]
  · rw [phase4_routine_creation, h]
  · rw [get_session_status_route, h]

/-- Witness for `router_exception_boundary`: each boundary case exercised
at a concrete store, service outcome and error. -/
theorem router_exception_boundary_witness :
    phase1_form_analysis ⟨[], [], 0⟩ (.ok (.num 0, .obj [("a", .num 1)])) false
      = (.error ⟨500, "Phase 1 failed: 500: Failed to save form data"⟩,
         ⟨["session-0"], [], 1⟩)
    ∧ phase1_form_analysis ⟨[], [], 0⟩ (.error "boom") true
      = (.error ⟨500, "Phase 1 failed: boom"⟩, ⟨[], [], 0⟩)
    ∧ phase2_image_analysis ⟨[], [], 0⟩ "s1" (some "image/png") (.ok .null) true
      = (.error ⟨404, "Session not found. Complete Phase 1 first."⟩, ⟨[], [], 0⟩)
    ∧ phase2_image_analysis ⟨["s1"], [], 1⟩ "s1" (some "image/png")
        (.error "boom") true
      = (.error ⟨500, "Phase 2 failed: boom"⟩, ⟨["s1"], [], 1⟩)
    ∧ phase3_product_recommendations ⟨[], [], 0⟩ "s1" (fun _ => .ok .null) true
      = (.error ⟨400, "Missing form data. Complete Phase 1 first."⟩, ⟨[], [], 0⟩)
    ∧ phase3_product_recommendations
        ⟨["s1"], [(("s1", "phase1"), Json.obj [("skin", .str "dry")]),
                  (("s1", "phase2"), Json.obj [("tone", .str "fair")])], 1⟩ "s1"
        (fun _ => .error "boom") true
      = (.error ⟨500, "Phase 3 failed: boom"⟩,
         ⟨["s1"], [(("s1", "phase1"), Json.obj [("skin", .str "dry")]),
                   (("s1", "phase2"), Json.obj [("tone", .str "fair")])], 1⟩)
    ∧ phase4_routine_creation ⟨[], [], 0⟩ "s1" (fun _ => .ok .null) true
      = (.error ⟨400, "Missing form data. Complete Phase 1 first."⟩, ⟨[], [], 0⟩)
    ∧ phase4_routine_creation
        ⟨["s1"], [(("s1", "phase1"), Json.obj [("skin", .str "dry")]),
                  (("s1", "phase3"), Json.obj [("products", .obj [("c", .str "x")])])], 1⟩
        "s1" (fun _ => .error "boom") true
      = (.error ⟨500, "Phase 4 failed: boom"⟩,
         ⟨["s1"], [(("s1", "phase1"), Json.obj [("skin", .str "dry")]),
                   (("s1", "phase3"), Json.obj [("products", .obj [("c", .str "x")])])], 1⟩)
    ∧ get_session_status_route ⟨[], [], 0⟩ "s1"
      = (.error ⟨404, "Session not found"⟩, ⟨[], [], 0⟩) := by
  refine ⟨?_, ?_, ?_, ?_, ?_, ?_, ?_, ?_, ?_⟩
  · exact (router_exception_boundary ⟨[], [], 0⟩ ⟨["session-0"], [], 1⟩ "s1"
      (some "image/png") (.ok (.num 0, .obj [("a", .num 1)])) (.ok .null)
      (fun _ => .ok .null) (fun _ => .ok .null) false
      ⟨500, "Failed to save form data"⟩ "boom").1 rfl
  · exact (router_exception_boundary ⟨[], [], 0⟩ ⟨[], [], 0⟩ "s1"
      (some "image/png") (.error "boom") (.ok .null)
      (fun _ => .ok .null) (fun _ => .ok .null) true
      ⟨500, "unused"⟩ "boom").2.1 rfl
  · exact (router_exception_boundary ⟨[], [], 0⟩ ⟨[], [], 0⟩ "s1"
      (some "image/png") (.ok (.num 0, .null)) (.ok .null)
      (fun _ => .ok .null) (fun _ => .ok .null) true
      ⟨404, "Session not found. Complete Phase 1 first."⟩ "m").2.2.1 rfl
  · exact (router_exception_boundary ⟨["s1"], [], 1⟩ ⟨["s1"], [], 1⟩ "s1"
      (some "image/png") (.ok (.num 0, .null)) (.error "boom")
      (fun _ => .ok .null) (fun _ => .ok .null) true
      ⟨404, "unused"⟩ "boom").2.2.2.1 rfl
  · exact (router_exception_boundary ⟨[], [], 0⟩ ⟨[], [], 0⟩ "s1"
      (some "image/png") (.ok (.num 0, .null)) (.ok .null)
      (fun _ => .ok .null) (fun _ => .ok .null) true
      ⟨400, "Missing form data. Complete Phase 1 first."⟩ "m").2.2.2.2.1 rfl
  · exact (router_exception_boundary
      ⟨["s1"], [(("s1", "phase1"), Json.obj [("skin", .str "dry")]),
                (("s1", "phase2"), Json.obj [("tone", .str "fair")])], 1⟩
      ⟨["s1"], [(("s1", "phase1"), Json.obj [("skin", .str "dry")]),
                (("s1", "phase2"), Json.obj [("tone", .str "fair")])], 1⟩
      "s1" (some "image/png") (.ok (.num 0, .null)) (.ok .null)
      (fun _ => .error "boom") (fun _ => .ok .null) true
      ⟨404, "unused"⟩ "boom").2.2.2.2.2.1 rfl
  · exact (router_exception_boundary ⟨[], [], 0⟩ ⟨[], [], 0⟩ "s1"
      (some "image/png") (.ok (.num 0, .null)) (.ok .null)
      (fun _ => .ok .null) (fun _ => .ok .null) true
      ⟨400, "Missing form data. Complete Phase 1 first."⟩ "m").2.2.2.2.2.2.1 rfl
  · exact (router_exception_boundary
      ⟨["s1"], [(("s1", "phase1"), Json.obj [("skin", .str "dry")]),
                (("s1", "phase3"), Json.obj [("products", .obj [("c", .str "x")])])], 1⟩
      ⟨["s1"], [(("s1", "phase1"), Json.obj [("skin", .str "dry")]),
                (("s1", "phase3"), Json.obj [("products", .obj [("c", .str "x")])])], 1⟩
      "s1" (some "image/png") (.ok (.num 0, .null)) (.ok .null)
      (fun _ => .ok .null) (fun _ => .error "boom") true
      ⟨404, "unused"⟩ "boom").2.2.2.2.2.2.2.1 rfl
  · exact (router_exception_boundary ⟨[], [], 0⟩ ⟨[], [], 0⟩ "s1"
      (some "image/png") (.ok (.num 0, .null)) (.ok .null)
      (fun _ => .ok .null) (fun _ => .ok .null) true
      ⟨404, "Session not found"⟩ "m").2.2.2.2.2.2.2.2 rfl

/-- C2 counterexample: a successful phase 3 call whose response is just
the recommendation payload — it contains neither the session id nor a
status marker nor a next-phase field. -/
theorem phase3_success_response_lacks_session_id :
    (phase3_product_recommendations
        ⟨["s1"], [(("s1", "phase1"), Json.obj [("skin", .str "dry")]),
                  (("s1", "phase2"), Json.obj [("tone", .str "fair")])], 1⟩ "s1"
        (fun _ => .ok (.obj [("products", .obj [("cleanser", .str "basic")])]))
        true).1
      = .ok (.obj [("products", .obj [("cleanser", .str "basic")])])
    ∧ (Json.obj [("products", .obj [("cleanser", .str "basic")])]).hasKey
        "session_id" = false
    ∧ (Json.obj [("products", .obj [("cleanser", .str "basic")])]).hasKey
        "status" = false
    ∧ (Json.obj [("products", .obj [("cleanser", .str "basic")])]).hasKey
        "next_phase" = false :=
  ⟨rfl, rfl, rfl, rfl⟩

/-- C2 amended: successful phase 1 and phase 2 calls return a response
carrying the session id, the `"success"` status marker, the next-phase
field and the produced payload; successful phase 3 and phase 4 calls
return only the payload produced by their service, with no such
envelope. -/
theorem phase_success_response_shapes (st : DataStore) (sid : String)
    (ct : Option String) (svc1 : Except String (Json × Json))
    (svc2 : Except String Json) (svc3 svc4 : Json → Except String Json)
    (persistOk : Bool) :
    (∀ (r : Json) (st' : DataStore),
        phase1_form_analysis st svc1 persistOk = (.ok r, st') →
        r.hasKey "session_id" = true
        ∧ r.lookup "status" = some (.str "success")
        ∧ r.hasKey "next_phase" = true
        ∧ r.hasKey "data" = true)
    ∧ (∀ (r : Json) (st' : DataStore),
        phase2_image_analysis st sid ct svc2 persistOk = (.ok r, st') →
        r.lookup "session_id" = some (.str sid)
        ∧ r.lookup "status" = some (.str "success")
        ∧ r.hasKey "next_phase" = true
        ∧ r.hasKey "analysis" = true)
    ∧ (∀ (r : Json) (st' : DataStore),
        phase3_product_recommendations st sid svc3 persistOk = (.ok r, st') →
        ∃ input : Json, svc3 input = .ok r)
    ∧ (∀ (r : Json) (st' : DataStore),
        phase4_routine_creation st sid svc4 persistOk = (.ok r, st') →
        ∃ input : Json, svc4 input = .ok r) := by
  refine ⟨?_, ?_, ?_, ?_⟩
  · intro r st' h
    rcases svc1 with m | ⟨fi, fd⟩
    · simp [phase1_form_analysis, phase1_body] at h
    · cases persistOk
      · simp [phase1_form_analysis, phase1_body, DataStore.create_session,
          DataStore.save_phase_data] at h
      · simp [phase1_form_analysis, phase1_body, DataStore.create_session,
          DataStore.save_phase_data] at h
        obtain ⟨hr, _⟩ := h
        subst hr
        exact ⟨rfl, rfl, rfl, rfl⟩
  · intro r st' h
    cases hs : st.session_exists sid
    · simp [phase2_image_analysis, phase2_body, hs] at h
    · cases ct with
      | none => simp [phase2_image_analysis, phase2_body, hs] at h
      | some c =>
        cases hc : pyStartsWith c "image/"
        · simp [phase2_image_analysis, phase2_body, hs, hc] at h
        · rcases svc2 with m | a
          · simp [phase2_image_analysis, phase2_body, hs, hc] at h
          · cases persistOk
            · simp [phase2_image_analysis, phase2_body, hs, hc,
                DataStore.save_phase_data] at h
            · simp [phase2_image_analysis, phase2_body, hs, hc,
                DataStore.save_phase_data] at h
              obtain ⟨hr, _⟩ := h
              subst hr
              exact ⟨rfl, rfl, rfl, rfl⟩
  · intro r st' h
    cases h1 : pyFalsy (st.load_phase_data sid "phase1")
    case true => simp [phase3_product_recommendations, phase3_body, h1] at h
    cases h2 : pyFalsy (st.load_phase_data sid "phase2")
    case true => simp [phase3_product_recommendations, phase3_body, h1, h2] at h
    rcases hg : ((st.load_phase_data sid "phase2").getD .null).dictGet "ai_output"
        ((st.load_phase_data sid "phase2").getD .null) with _ | sk
    · simp [phase3_product_recommendations, phase3_body, h1, h2, hg] at h
    · rcases hsv : svc3 (Json.obj
          [("form_data", (st.load_phase_data sid "phase1").getD .null),
           ("skin_analysis", sk)]) with m | rec
      · simp [phase3_product_recommendations, phase3_body, h1, h2, hg, hsv] at h
      · cases persistOk
        · simp [phase3_product_recommendations, phase3_body, h1, h2, hg, hsv,
            DataStore.save_phase_data] at h
        · simp [phase3_product_recommendations, phase3_body, h1, h2, hg, hsv,
            DataStore.save_phase_data] at h
          obtain ⟨hr, _⟩ := h
          subst hr
          exact ⟨_, hsv⟩
  · intro r st' h
    cases h1 : pyFalsy (st.load_phase_data sid "phase1")
    case true => simp [phase4_routine_creation, phase4_body, h1] at h
    cases h3 : pyFalsy (st.load_phase_data sid "phase3")
    case true => simp [phase4_routine_creation, phase4_body, h1, h3] at h
    rcases hg : ((st.load_phase_data sid "phase3").getD .null).dictGet "products"
        (.obj []) with _ | pr
    · simp [phase4_routine_creation, phase4_body, h1, h3, hg] at h
    · rcases hsv : svc4 (Json.obj
          [("form_data", (st.load_phase_data sid "phase1").getD .null),
           ("product_recommendations", pr)]) with m | rt
      · simp [phase4_routine_creation, phase4_body, h1, h3, hg, hsv] at h
      · cases persistOk
        · simp [phase4_routine_creation, phase4_body, h1, h3, hg, hsv,
            DataStore.save_phase_data] at h
        · simp [phase4_routine_creation, phase4_body, h1, h3, hg, hsv,
            DataStore.save_phase_data] at h
          obtain ⟨hr, _⟩ := h
          subst hr
          exact ⟨_, hsv⟩

/-- Witness for `phase_success_response_shapes`: concrete successful runs
of all four phase endpoints. -/
theorem phase_success_response_shapes_witness :
    (phase1_form_analysis ⟨[], [], 0⟩ (.ok (.num 0, .obj [("a", .num 1)])) true
      = (.ok (Json.obj [
          ("session_id", .str "session-0"),
          ("status", .str "success"),
          ("message", .str "Form data processed and saved successfully"),
          ("next_phase", .str "Phase 2: Upload facial image for analysis"),
          ("form_index", .num 0),
          ("data", .obj [("a", .num 1)])]),
        ⟨["session-0"], [(("session-0", "phase1"), .obj [("a", .num 1)])], 1⟩))
    ∧ ((Json.obj [
          ("session_id", .str "session-0"),
          ("status", .str "success"),
          ("message", .str "Form data processed and saved successfully"),
          ("next_phase", .str "Phase 2: Upload facial image for analysis"),
          ("form_index", .num 0),
          ("data", .obj [("a", .num 1)])]).hasKey "session_id" = true
       ∧ (Json.obj [
          ("session_id", .str "session-0"),
          ("status", .str "success"),
          ("message", .str "Form data processed and saved successfully"),
          ("next_phase", .str "Phase 2: Upload facial image for analysis"),
          ("form_index", .num 0),
          ("data", .obj [("a", .num 1)])]).lookup "status" = some (.str "success")
       ∧ (Json.obj [
          ("session_id", .str "session-0"),
          ("status", .str "success"),
          ("message", .str "Form data processed and saved successfully"),
          ("next_phase", .str "Phase 2: Upload facial image for analysis"),
          ("form_index", .num 0),
          ("data", .obj [("a", .num 1)])]).hasKey "next_phase" = true
       ∧ (Json.obj [
          ("session_id", .str "session-0"),
          ("status", .str "success"),
          ("message", .str "Form data processed and saved successfully"),
          ("next_phase", .str "Phase 2: Upload facial image for analysis"),
          ("form_index", .num 0),
          ("data", .obj [("a", .num 1)])]).hasKey "data" = true)
    ∧ (phase2_image_analysis ⟨["s1"], [], 1⟩ "s1" (some "image/png")
        (.ok (.obj [("tone", .str "fair")])) true
      = (.ok (Json.obj [
          ("session_id", .str "s1"),
          ("status", .str "success"),
          ("message", .str "Image analysis completed and saved successfully"),
          ("next_phase", .str "Phase 3: Generate product recommendations"),
          ("analysis", .obj [("tone", .str "fair")])]),
        ⟨["s1"], [(("s1", "phase2"), .obj [("tone", .str "fair")])], 1⟩))
    ∧ ((Json.obj [
          ("session_id", .str "s1"),
          ("status", .str "success"),
          ("message", .str "Image analysis completed and saved successfully"),
          ("next_phase", .str "Phase 3: Generate product recommendations"),
          ("analysis", .obj [("tone", .str "fair")])]).lookup "session_id"
            = some (.str "s1")
       ∧ (Json.obj [
          ("session_id", .str "s1"),
          ("status", .str "success"),
          ("message", .str "Image analysis completed and saved successfully"),
          ("next_phase", .str "Phase 3: Generate product recommendations"),
          ("analysis", .obj [("tone", .str "fair")])]).lookup "status"
            = some (.str "success")
       ∧ (Json.obj [
          ("session_id", .str "s1"),
          ("status", .str "success"),
          ("message", .str "Image analysis completed and saved successfully"),
          ("next_phase", .str "Phase 3: Generate product recommendations"),
          ("analysis", .obj [("tone", .str "fair")])]).hasKey "next_phase" = true
       ∧ (Json.obj [
          ("session_id", .str "s1"),
          ("status", .str "success"),
          ("message", .str "Image analysis completed and saved successfully"),
          ("next_phase", .str "Phase 3: Generate product recommendations"),
          ("analysis", .obj [("tone", .str "fair")])]).hasKey "analysis" = true)
    ∧ (phase3_product_recommendations
        ⟨["s1"], [(("s1", "phase1"), Json.obj [("skin", .str "dry")]),
                  (("s1", "phase2"), Json.obj [("tone", .str "fair")])], 1⟩ "s1"
        (fun _ => .ok (.obj [("products", .obj [("cleanser", .str "basic")])]))
        true
      = (.ok (.obj [("products", .obj [("cleanser", .str "basic")])]),
        ⟨["s1"], [(("s1", "phase3"),
                    Json.obj [("products", .obj [("cleanser", .str "basic")])]),
                  (("s1", "phase1"), Json.obj [("skin", .str "dry")]),
                  (("s1", "phase2"), Json.obj [("tone", .str "fair")])], 1⟩))
    ∧ (∃ input : Json,
        (fun _ => Except.ok
            (Json.obj [("products", .obj [("cleanser", .str "basic")])]) :
          Json → Except String Json) input
          = .ok (.obj [("products", .obj [("cleanser", .str "basic")])]))
    ∧ (phase4_routine_creation
        ⟨["s1"], [(("s1", "phase1"), Json.obj [("skin", .str "dry")]),
                  (("s1", "phase3"),
                    Json.obj [("products", .obj [("cleanser", .str "basic")])])], 1⟩
        "s1" (fun _ => .ok (.obj [("morning", .arr [.str "cleanser"])])) true
      = (.ok (.obj [("morning", .arr [.str "cleanser"])]),
        ⟨["s1"], [(("s1", "phase4"), Json.obj [("morning", .arr [.str "cleanser"])]),
                  (("s1", "phase1"), Json.obj [("skin", .str "dry")]),
                  (("s1", "phase3"),
                    Json.obj [("products", .obj [("cleanser", .str "basic")])])], 1⟩))
    ∧ (∃ input : Json,
        (fun _ => Except.ok (Json.obj [("morning", .arr [.str "cleanser"])]) :
          Json → Except String Json) input
          = .ok (.obj [("morning", .arr [.str "cleanser"])])) := by
  refine ⟨rfl, ?_, rfl, ?_, rfl, ?_, rfl, ?_⟩
  · exact (phase_success_response_shapes ⟨[], [], 0⟩ "s1" (some "image/png")
      (.ok (.num 0, .obj [("a", .num 1)])) (.ok .null)
      (fun _ => .ok .null) (fun _ => .ok .null) true).1 _ _ rfl
  · exact (phase_success_response_shapes ⟨["s1"], [], 1⟩ "s1" (some "image/png")
      (.ok (.num 0, .null)) (.ok (.obj [("tone", .str "fair")]))
      (fun _ => .ok .null) (fun _ => .ok .null) true).2.1 _ _ rfl
  · exact (phase_success_response_shapes
      ⟨["s1"], [(("s1", "phase1"), Json.obj [("skin", .str "dry")]),
                (("s1", "phase2"), Json.obj [("tone", .str "fair")])], 1⟩ "s1"
      (some "image/png") (.ok (.num 0, .null)) (.ok .null)
      (fun _ => .ok (.obj [("products", .obj [("cleanser", .str "basic")])]))
      (fun _ => .ok .null) true).2.2.1 _ _ rfl
  · exact (phase_success_response_shapes
      ⟨["s1"], [(("s1", "phase1"), Json.obj [("skin", .str "dry")]),
                (("s1", "phase3"),
                  Json.obj [("products", .obj [("cleanser", .str "basic")])])], 1⟩
      "s1" (some "image/png") (.ok (.num 0, .null)) (.ok .null)
      (fun _ => .ok .null)
      (fun _ => .ok (.obj [("morning", .arr [.str "cleanser"])])) true).2.2.2 _ _ rfl
